import Mathlib

/-!
Shallow embedding of the STM32L1 RTC driver (src/rtc.rs).

Registers are modelled as records of their bit fields: multi-bit fields
as naturals (kept under their field width by masking at every write,
matching the generated register API, which masks the argument of a
field-level bits call), single bits as booleans.  A register level
write starts from the hardware reset value of the register and applies
the listed field updates; a register level modify starts from the
current value.  Hardware busy-wait loops are modelled by updating the
polled flag to the value that lets the loop exit, which is exactly the
state observed by the program when the loop terminates.  Aborts of the
source (expect / unwrap) are modelled with Option, none standing for a
panic.  Register accesses are additionally recorded in an access trace
where a claim is about the order of accesses.
-/

/-- Error type of rtc.rs; the only recoverable error. -/
inductive Error where
  | InvalidInputData
deriving DecidableEq, Repr

/-- Event type of rtc.rs. -/
inductive Event where
  | AlarmA
  | AlarmB
  | Wakeup
  | Timestamp
deriving DecidableEq, Repr

/-- RTC time register RTC_TR: hour/minute/second fields plus the PM bit. -/
structure TrReg where
  pm : Bool
  ht : Nat
  hu : Nat
  mnt : Nat
  mnu : Nat
  st : Nat
  su : Nat
deriving DecidableEq, Repr

/-- RTC date register RTC_DR: year/weekday/month/day fields. -/
structure DrReg where
  yt : Nat
  yu : Nat
  wdu : Nat
  mt : Bool
  mu : Nat
  dt : Nat
  du : Nat
deriving DecidableEq, Repr

/-- RTC control register RTC_CR, restricted to the fields the driver touches. -/
structure CrReg where
  wucksel : Nat
  tsie : Bool
  wutie : Bool
  alrbie : Bool
  alraie : Bool
  tse : Bool
  wute : Bool
  alrbe : Bool
  alrae : Bool
  fmt : Bool
deriving DecidableEq, Repr

/-- RTC status register RTC_ISR, restricted to the fields the driver touches. -/
structure IsrReg where
  init : Bool
  initf : Bool
  rsf : Bool
  wutwf : Bool
  wutf : Bool
  alraf : Bool
  alrbf : Bool
  tsf : Bool
deriving DecidableEq, Repr

/-- The RTC register block as used by the driver. -/
structure RtcRegs where
  tr : TrReg
  dr : DrReg
  cr : CrReg
  isr : IsrReg
  wutr : Nat
  wpr : Nat
deriving DecidableEq, Repr

/-- The EXTI registers used by the driver, each as a plain bit vector. -/
structure ExtiRegs where
  rtsr : Nat
  imr : Nat
  pr : Nat
deriving DecidableEq, Repr

/-- The PWR control register, restricted to the bit the driver touches here. -/
structure PwrReg where
  cwuf : Bool
deriving DecidableEq, Repr

/-- Complete machine state visible to the embedded operations. -/
structure Machine where
  rtc : RtcRegs
  exti : ExtiRegs
  pwr : PwrReg
deriving DecidableEq, Repr

/-- Reset value of RTC_TR (0x0000_0000). -/
def trReset : TrReg :=
  { pm := false, ht := 0, hu := 0, mnt := 0, mnu := 0, st := 0, su := 0 }

/-- Reset value of RTC_DR (0x0000_2101: weekday 1, month 1, day 1). -/
def drReset : DrReg :=
  { yt := 0, yu := 0, wdu := 1, mt := false, mu := 1, dt := 0, du := 1 }

/-- Reset value of RTC_CR (0x0000_0000). -/
def crReset : CrReg :=
  { wucksel := 0, tsie := false, wutie := false, alrbie := false, alraie := false,
    tse := false, wute := false, alrbe := false, alrae := false, fmt := false }

/-- Reset value of RTC_ISR (0x0000_0007 sets the write-allowed flags). -/
def isrReset : IsrReg :=
  { init := false, initf := false, rsf := false, wutwf := true, wutf := false,
    alraf := false, alrbf := false, tsf := false }

/-- A machine in the reset state, used to instantiate universally quantified facts. -/
def machineReset : Machine :=
  { rtc := { tr := trReset, dr := drReset, cr := crReset, isr := isrReset,
             wutr := 0xFFFF, wpr := 0 },
    exti := { rtsr := 0, imr := 0, pr := 0 },
    pwr := { cwuf := false } }

/-- One recorded register access, for claims about access ordering. -/
inductive Access where
  | wprWrite (v : Nat)
  | crMod
  | crWrite
  | isrRead
  | isrMod
  | pollInitfSet
  | pollInitfClear
  | pollWutwf
  | pollWutfClear
  | pollRsf
  | trRead
  | trWrite
  | trMod
  | drRead
  | drWrite
  | drMod
  | wutrWrite
  | pwrCrMod
  | extiRtsrSet (bit : Nat)
  | extiImrSet (bit : Nat)
  | extiPrSet (bit : Nat)
deriving DecidableEq, Repr

/-- Model of bb set on an EXTI register: set a single bit. -/
def bbset (v bit : Nat) : Nat := v ||| 2 ^ bit

/-- From rtc.rs: encode a value into a BCD digit pair.  The two try_into
calls to u8 fail when the component exceeds 255 (defensive, unreachable
for validated domains). -/
def bcd2_encode (word : Nat) : Except Error (Nat × Nat) :=
  if word / 10 ≥ 256 then Except.error Error.InvalidInputData
  else if word % 10 ≥ 256 then Except.error Error.InvalidInputData
  else Except.ok (word / 10, word % 10)

/-- From rtc.rs: decode a BCD digit pair.  The sum is computed in u8
arithmetic, hence the reduction modulo 256. -/
def bcd2_decode (fst snd : Nat) : Nat := (fst * 10 + snd) % 256

/-- From rtc.rs decode_seconds: decode the seconds fields, truncated to u8. -/
def decode_seconds (tr : TrReg) : Nat := bcd2_decode tr.st tr.su % 256

/-- From rtc.rs decode_minutes. -/
def decode_minutes (tr : TrReg) : Nat := bcd2_decode tr.mnt tr.mnu % 256

/-- From rtc.rs decode_hours. -/
def decode_hours (tr : TrReg) : Nat := bcd2_decode tr.ht tr.hu % 256

/-- From rtc.rs decode_day. -/
def decode_day (dr : DrReg) : Nat := bcd2_decode dr.dt dr.du % 256

/-- From rtc.rs decode_month: the tens part is the single MT bit. -/
def decode_month (dr : DrReg) : Nat :=
  bcd2_decode (if dr.mt then 1 else 0) dr.mu % 256

/-- From rtc.rs decode_year: BCD value offset by the 1970 epoch, truncated to u16. -/
def decode_year (dr : DrReg) : Nat := (bcd2_decode dr.yt dr.yu + 1970) % 65536

/-- Modelled from the time crate dependency (not under src): the leap
year rule used by Date from_calendar_date. -/
def is_leap_year (y : Int) : Bool :=
  (y % 4 == 0 && y % 100 != 0) || y % 400 == 0

/-- Modelled from the time crate dependency (not under src): days in a
month, month counted 1 to 12. -/
def days_in_month (y : Int) (m : Nat) : Nat :=
  match m with
  | 1 => 31
  | 2 => if is_leap_year y then 29 else 28
  | 3 => 31
  | 4 => 30
  | 5 => 31
  | 6 => 30
  | 7 => 31
  | 8 => 31
  | 9 => 30
  | 10 => 31
  | 11 => 30
  | 12 => 31
  | _ => 0

/-- Raw fields of a time crate Date as used by set_date. -/
structure RDate where
  year : Int
  month : Nat
  day : Nat
deriving DecidableEq, Repr

/-- Raw fields of a time crate PrimitiveDateTime as used by set_datetime. -/
structure RDateTime where
  year : Int
  month : Nat
  day : Nat
  hour : Nat
  minute : Nat
  second : Nat
deriving DecidableEq, Repr

/-- Fields of the PrimitiveDateTime composed by get_datetime. -/
structure DTFields where
  year : Int
  month : Nat
  day : Nat
  hour : Nat
  minute : Nat
  second : Nat
deriving DecidableEq, Repr

namespace Rtc

/-- From rtc.rs modify, the init mode entry step: read RTC_ISR and, when
the init flag is clear, set the INIT bit and busy-wait until the
hardware raises the init flag. -/
def initEntry (r : RtcRegs) : RtcRegs × List Access :=
  if r.isr.initf then (r, [Access.isrRead])
  else
    ({ r with isr := { r.isr with init := true, initf := true } },
     [Access.isrRead, Access.isrMod, Access.pollInitfSet])

/-- From rtc.rs modify: unlock write protection with the 0xCA, 0x53 key
sequence, enter init mode if needed, run the caller supplied closure,
exit init mode (clear INIT and busy-wait for the init flag to clear),
then lock write protection with 0xFF. -/
def modify (f : RtcRegs → RtcRegs × List Access) (m : Machine) : Machine × List Access :=
  let r1 := { m.rtc with wpr := 0xCA }
  let r2 := { r1 with wpr := 0x53 }
  let e := initEntry r2
  let p := f e.1
  let r5 := { p.1 with isr := { p.1.isr with init := false, initf := false } }
  let r6 := { r5 with wpr := 0xFF }
  ({ m with rtc := r6 },
   [Access.wprWrite 0xCA, Access.wprWrite 0x53] ++ e.2 ++ p.2
     ++ [Access.isrMod, Access.pollInitfClear, Access.wprWrite 0xFF])

/-- From rtc.rs set_seconds: reject values above 59, BCD encode, then
update the seconds fields of RTC_TR under a modify transaction. -/
def set_seconds (seconds : Nat) (m : Machine) : Option Error × Machine × List Access :=
  if seconds > 59 then (some Error.InvalidInputData, m, [])
  else
    match bcd2_encode seconds with
    | Except.error e => (some e, m, [])
    | Except.ok (st, su) =>
      let p := modify (fun r =>
        ({ r with tr := { r.tr with st := st % 8, su := su % 16 } }, [Access.trMod])) m
      (none, p.1, p.2)

/-- From rtc.rs set_minutes. -/
def set_minutes (minutes : Nat) (m : Machine) : Option Error × Machine × List Access :=
  if minutes > 59 then (some Error.InvalidInputData, m, [])
  else
    match bcd2_encode minutes with
    | Except.error e => (some e, m, [])
    | Except.ok (mnt, mnu) =>
      let p := modify (fun r =>
        ({ r with tr := { r.tr with mnt := mnt % 8, mnu := mnu % 16 } }, [Access.trMod])) m
      (none, p.1, p.2)

/-- From rtc.rs set_hours. -/
def set_hours (hours : Nat) (m : Machine) : Option Error × Machine × List Access :=
  if hours > 23 then (some Error.InvalidInputData, m, [])
  else
    match bcd2_encode hours with
    | Except.error e => (some e, m, [])
    | Except.ok (ht, hu) =>
      let p := modify (fun r =>
        ({ r with tr := { r.tr with ht := ht % 4, hu := hu % 16 } }, [Access.trMod])) m
      (none, p.1, p.2)

/-- From rtc.rs set_weekday: reject values outside 1 to 7, then update
the weekday field of RTC_DR under a modify transaction. -/
def set_weekday (weekday : Nat) (m : Machine) : Option Error × Machine × List Access :=
  if weekday < 1 ∨ 7 < weekday then (some Error.InvalidInputData, m, [])
  else
    let p := modify (fun r =>
      ({ r with dr := { r.dr with wdu := weekday % 8 } }, [Access.drMod])) m
    (none, p.1, p.2)

/-- From rtc.rs set_day: reject values outside 1 to 31. -/
def set_day (day : Nat) (m : Machine) : Option Error × Machine × List Access :=
  if day < 1 ∨ 31 < day then (some Error.InvalidInputData, m, [])
  else
    match bcd2_encode day with
    | Except.error e => (some e, m, [])
    | Except.ok (dt, du) =>
      let p := modify (fun r =>
        ({ r with dr := { r.dr with dt := dt % 4, du := du % 16 } }, [Access.drMod])) m
      (none, p.1, p.2)

/-- From rtc.rs set_month: reject values outside 1 to 12; the tens part
is stored in the single MT bit. -/
def set_month (month : Nat) (m : Machine) : Option Error × Machine × List Access :=
  if month < 1 ∨ 12 < month then (some Error.InvalidInputData, m, [])
  else
    match bcd2_encode month with
    | Except.error e => (some e, m, [])
    | Except.ok (mt, mu) =>
      let p := modify (fun r =>
        ({ r with dr := { r.dr with mt := decide (0 < mt), mu := mu % 16 } }, [Access.drMod])) m
      (none, p.1, p.2)

/-- From rtc.rs set_year: reject values outside 1970 to 2069; the year
is stored offset by the 1970 epoch. -/
def set_year (year : Nat) (m : Machine) : Option Error × Machine × List Access :=
  if year < 1970 ∨ 2069 < year then (some Error.InvalidInputData, m, [])
  else
    match bcd2_encode (year - 1970) with
    | Except.error e => (some e, m, [])
    | Except.ok (yt, yu) =>
      let p := modify (fun r =>
        ({ r with dr := { r.dr with yt := yt % 16, yu := yu % 16 } }, [Access.drMod])) m
      (none, p.1, p.2)

/-- From rtc.rs set_date: validate the year range, encode all date
fields, then perform one full write of RTC_DR under a modify
transaction.  A full register write resets the fields not listed by the
closure, so the weekday field takes its reset value. -/
def set_date (d : RDate) (m : Machine) : Option Error × Machine × List Access :=
  if d.year < 1970 ∨ 2069 < d.year then (some Error.InvalidInputData, m, [])
  else
    match bcd2_encode (d.year - 1970).toNat with
    | Except.error e => (some e, m, [])
    | Except.ok (yt, yu) =>
      match bcd2_encode d.month with
      | Except.error e => (some e, m, [])
      | Except.ok (mt, mu) =>
        match bcd2_encode d.day with
        | Except.error e => (some e, m, [])
        | Except.ok (dt, du) =>
          let p := modify (fun r =>
            ({ r with dr :=
                { yt := yt % 16, yu := yu % 16, wdu := drReset.wdu, mt := decide (0 < mt),
                  mu := mu % 16, dt := dt % 4, du := du % 16 } },
             [Access.drWrite])) m
          (none, p.1, p.2)

/-- From rtc.rs set_datetime: validate the year range, encode all date
and time fields, then perform one full write of RTC_DR followed by one
full write of RTC_TR under a single modify transaction. -/
def set_datetime (d : RDateTime) (m : Machine) : Option Error × Machine × List Access :=
  if d.year < 1970 ∨ 2069 < d.year then (some Error.InvalidInputData, m, [])
  else
    match bcd2_encode (d.year - 1970).toNat with
    | Except.error e => (some e, m, [])
    | Except.ok (yt, yu) =>
      match bcd2_encode d.month with
      | Except.error e => (some e, m, [])
      | Except.ok (mt, mu) =>
        match bcd2_encode d.day with
        | Except.error e => (some e, m, [])
        | Except.ok (dt, du) =>
          match bcd2_encode d.hour with
          | Except.error e => (some e, m, [])
          | Except.ok (ht, hu) =>
            match bcd2_encode d.minute with
            | Except.error e => (some e, m, [])
            | Except.ok (mnt, mnu) =>
              match bcd2_encode d.second with
              | Except.error e => (some e, m, [])
              | Except.ok (st, su) =>
                let p := modify (fun r =>
                  ({ r with
                      dr :=
                        { yt := yt % 16, yu := yu % 16, wdu := drReset.wdu,
                          mt := decide (0 < mt), mu := mu % 16, dt := dt % 4, du := du % 16 },
                      tr :=
                        { pm := false, ht := ht % 4, hu := hu % 16, mnt := mnt % 8,
                          mnu := mnu % 16, st := st % 8, su := su % 16 } },
                   [Access.drWrite, Access.trWrite])) m
                (none, p.1, p.2)

/-- From rtc.rs get_datetime: busy-wait for the registers synchronized
flag, read RTC_TR then RTC_DR in that order, clear the synchronization
flag, then decode.  The composed value is none when either unwrap of
the source (calendar or time construction) would abort. -/
def get_datetime (m : Machine) : Option DTFields × Machine × List Access :=
  let m1 := { m with rtc := { m.rtc with isr := { m.rtc.isr with rsf := true } } }
  let trv := m1.rtc.tr
  let drv := m1.rtc.dr
  let m2 := { m1 with rtc := { m1.rtc with isr := { m1.rtc.isr with rsf := false } } }
  let seconds := decode_seconds trv
  let minutes := decode_minutes trv
  let hours := decode_hours trv
  let day := decode_day drv
  let month := decode_month drv
  let year : Int := decode_year drv
  let res : Option DTFields :=
    if 1 ≤ month ∧ month ≤ 12 ∧ 1 ≤ day ∧ day ≤ days_in_month year month
        ∧ hours ≤ 23 ∧ minutes ≤ 59 ∧ seconds ≤ 59 then
      some { year := year, month := month, day := day,
             hour := hours, minute := minutes, second := seconds }
    else none
  (res, m2, [Access.pollRsf, Access.trRead, Access.drRead, Access.isrMod])

/-- From rtc.rs enable_wakeup: unlock, disable the wakeup timer, clear
its flag, busy-wait for the write-allowed flag, pick the sub-timer mode
by interval magnitude, program RTC_WUTR, re-enable, lock.  The interval
argument is a u32; in the upper branch the guard makes the two u32
subtractions exact, in the lower branch the subtraction by one wraps at
2 to the 32 when the interval is zero.  The conversion of the residual
to u16 aborts (none) when it does not fit 16 bits. -/
def enable_wakeup (interval : Nat) (m : Machine) : Option Machine :=
  let r1 := { m.rtc with wpr := 0xCA }
  let r2 := { r1 with wpr := 0x53 }
  let r3 := { r2 with cr := { r2.cr with wute := false } }
  let r4 := { r3 with isr := { r3.isr with wutf := false } }
  let r5 := { r4 with isr := { r4.isr with wutwf := true } }
  if interval > 65536 then
    let r6 := { r5 with cr := { r5.cr with wucksel := 6 } }
    let v := interval - 65536 - 1
    if v < 65536 then
      let r7 := { r6 with wutr := v }
      let r8 := { r7 with cr := { r7.cr with wute := true } }
      some { m with rtc := { r8 with wpr := 0xFF } }
    else none
  else
    let r6 := { r5 with cr := { r5.cr with wucksel := 4 } }
    let v := (interval + 4294967296 - 1) % 4294967296
    if v < 65536 then
      let r7 := { r6 with wutr := v }
      let r8 := { r7 with cr := { r7.cr with wute := true } }
      some { m with rtc := { r8 with wpr := 0xFF } }
    else none

/-- From rtc.rs wakeup_timer: unlock, clear the wakeup flag and wait for
it to read clear, load the raw low 16 bits of the value into RTC_WUTR,
then perform a full write of RTC_CR (reset value based) setting only the
clock selection, the wakeup interrupt enable and the wakeup enable, then
lock. -/
def wakeup_timer (val : Nat) (m : Machine) : Machine :=
  let r1 := { m.rtc with wpr := 0xCA }
  let r2 := { r1 with wpr := 0x53 }
  let r3 := { r2 with isr := { r2.isr with wutf := false } }
  let r4 := { r3 with isr := { r3.isr with wutf := false } }
  let r5 := { r4 with wutr := val % 65536 }
  let r6 := { r5 with cr := { crReset with wucksel := 4, wutie := true, wute := true } }
  { m with rtc := { r6 with wpr := 0xFF } }

/-- From rtc.rs listen: unlock, set the rising-edge trigger and unmask
bits of the mapped EXTI line, set the event interrupt enable bit in
RTC_CR, lock. -/
def listen (e : Event) (m : Machine) : Machine :=
  let r1 := { m.rtc with wpr := 0xCA }
  let r2 := { r1 with wpr := 0x53 }
  let step : ExtiRegs × RtcRegs :=
    match e with
    | Event.AlarmA =>
      ({ m.exti with rtsr := bbset m.exti.rtsr 17, imr := bbset m.exti.imr 17 },
       { r2 with cr := { r2.cr with alraie := true } })
    | Event.AlarmB =>
      ({ m.exti with rtsr := bbset m.exti.rtsr 17, imr := bbset m.exti.imr 17 },
       { r2 with cr := { r2.cr with alrbie := true } })
    | Event.Wakeup =>
      ({ m.exti with rtsr := bbset m.exti.rtsr 20, imr := bbset m.exti.imr 20 },
       { r2 with cr := { r2.cr with wutie := true } })
    | Event.Timestamp =>
      ({ m.exti with rtsr := bbset m.exti.rtsr 19, imr := bbset m.exti.imr 19 },
       { r2 with cr := { r2.cr with tsie := true } })
  { m with
    rtc := { step.2 with wpr := 0xFF },
    exti := step.1 }

/-- From rtc.rs unpend: set the clear wakeup flag bit in the PWR control
register, clear the status flag of the event in RTC_ISR, and set the
pending clear bit of the mapped EXTI line. -/
def unpend (e : Event) (m : Machine) : Machine :=
  let m1 := { m with pwr := { m.pwr with cwuf := true } }
  match e with
  | Event.AlarmA =>
    { m1 with
      rtc := { m1.rtc with isr := { m1.rtc.isr with alraf := false } },
      exti := { m1.exti with pr := bbset m1.exti.pr 17 } }
  | Event.AlarmB =>
    { m1 with
      rtc := { m1.rtc with isr := { m1.rtc.isr with alrbf := false } },
      exti := { m1.exti with pr := bbset m1.exti.pr 17 } }
  | Event.Wakeup =>
    { m1 with
      rtc := { m1.rtc with isr := { m1.rtc.isr with wutf := false } },
      exti := { m1.exti with pr := bbset m1.exti.pr 20 } }
  | Event.Timestamp =>
    { m1 with
      rtc := { m1.rtc with isr := { m1.rtc.isr with tsf := false } },
      exti := { m1.exti with pr := bbset m1.exti.pr 19 } }

end Rtc

/-- Helper: BCD encoding succeeds and yields the digit decomposition
whenever both components fit in a byte. -/
theorem bcd2_encode_ok (w : Nat) (h : w < 2560) :
    bcd2_encode w = Except.ok (w / 10, w % 10) := by
  unfold bcd2_encode
  rw [if_neg (by omega), if_neg (by omega)]

/-- Helper: no month has more than 31 days. -/
theorem days_in_month_le (y : Int) (mo : Nat) : days_in_month y mo ≤ 31 := by
  unfold days_in_month
  split <;> first | omega | (split <;> omega)

/-- C4: for every n with 0 <= n <= 99, bcd2_encode n succeeds with the
pair (n / 10, n % 10), and bcd2_decode maps that pair back to n. -/
theorem c4_bcd_roundtrip (n : Nat) (h : n ≤ 99) :
    bcd2_encode n = Except.ok (n / 10, n % 10) ∧ bcd2_decode (n / 10) (n % 10) = n := by
  refine ⟨bcd2_encode_ok n (by omega), ?_⟩
  unfold bcd2_decode
  omega

/-- C4 witness: the round trip at n = 57. -/
theorem c4_witness :
    bcd2_encode 57 = Except.ok (5, 7) ∧ bcd2_decode 5 7 = 57 :=
  c4_bcd_roundtrip 57 (by decide)

/-- C1 counterexample: 131073 exceeds 2 to the 16, yet enable_wakeup
programs nothing for it: the residual 131073 - 65536 - 1 = 65536 does
not fit the u16 register conversion, so the call aborts. -/
theorem c1_counterexample :
    65536 < 131073 ∧ Rtc.enable_wakeup 131073 machineReset = none :=
  ⟨by decide, rfl⟩

/-- C1 (amended): for intervals in (2^16, 2^17] enable_wakeup programs
clock selection 0b110 and register value interval - 2^16 - 1, and for
intervals in [1, 2^16] it programs 0b100 and interval - 1; above 2^17
the residual no longer fits 16 bits and the call aborts instead. -/
theorem c1_enable_wakeup_ranges (interval : Nat) (m : Machine) :
    (65536 < interval → interval ≤ 131072 →
      (Rtc.enable_wakeup interval m).map (fun k => (k.rtc.cr.wucksel, k.rtc.wutr))
        = some (6, interval - 65536 - 1)) ∧
    (1 ≤ interval → interval ≤ 65536 →
      (Rtc.enable_wakeup interval m).map (fun k => (k.rtc.cr.wucksel, k.rtc.wutr))
        = some (4, interval - 1)) := by
  constructor
  · intro h1 h2
    simp only [Rtc.enable_wakeup]
    rw [if_pos h1, if_pos (by omega)]
    rfl
  · intro h1 h2
    simp only [Rtc.enable_wakeup]
    rw [if_neg (by omega), if_pos (by omega)]
    simp [Prod.ext_iff]
    omega

/-- C1 witness: the boundary intervals 65537 and 65536. -/
theorem c1_witness :
    ((Rtc.enable_wakeup 65537 machineReset).map (fun k => (k.rtc.cr.wucksel, k.rtc.wutr))
        = some (6, 65537 - 65536 - 1)) ∧
    ((Rtc.enable_wakeup 65536 machineReset).map (fun k => (k.rtc.cr.wucksel, k.rtc.wutr))
        = some (4, 65536 - 1)) :=
  ⟨(c1_enable_wakeup_ranges 65537 machineReset).1 (by decide) (by decide),
   (c1_enable_wakeup_ranges 65536 machineReset).2 (by decide) (by decide)⟩

/-- C9: the panic branches of enable_wakeup are unreachable exactly for
intervals in [1, 131072]: at interval 0 the u32 subtraction by one wraps
and the u16 conversion aborts, and above 131072 the mode B residual
exceeds 16 bits and the conversion aborts. -/
theorem c9_wakeup_panic_range (interval : Nat) (m : Machine) :
    ((Rtc.enable_wakeup interval m).isSome ↔ 1 ≤ interval ∧ interval ≤ 131072) ∧
    Rtc.enable_wakeup 0 m = none := by
  constructor
  · simp only [Rtc.enable_wakeup]
    by_cases h1 : interval > 65536
    · rw [if_pos h1]
      by_cases h2 : interval - 65536 - 1 < 65536
      · rw [if_pos h2]; simp; omega
      · rw [if_neg h2]; simp; omega
    · rw [if_neg h1]
      by_cases h2 : (interval + 4294967296 - 1) % 4294967296 < 65536
      · rw [if_pos h2]; simp; omega
      · rw [if_neg h2]; simp; omega
  · rfl

/-- C2: each per-field setter fails with the invalid input error exactly
when its argument is outside its domain (inputs range over the u8 or u16
argument type), and all documented boundary values succeed. -/
theorem c2_setter_validation (m : Machine) :
    (∀ v, v ≤ 255 → ((Rtc.set_seconds v m).1 = some Error.InvalidInputData ↔ 59 < v)) ∧
    (∀ v, v ≤ 255 → ((Rtc.set_minutes v m).1 = some Error.InvalidInputData ↔ 59 < v)) ∧
    (∀ v, v ≤ 255 → ((Rtc.set_hours v m).1 = some Error.InvalidInputData ↔ 23 < v)) ∧
    (∀ v, v ≤ 255 → ((Rtc.set_weekday v m).1 = some Error.InvalidInputData ↔ v < 1 ∨ 7 < v)) ∧
    (∀ v, v ≤ 255 → ((Rtc.set_day v m).1 = some Error.InvalidInputData ↔ v < 1 ∨ 31 < v)) ∧
    (∀ v, v ≤ 255 → ((Rtc.set_month v m).1 = some Error.InvalidInputData ↔ v < 1 ∨ 12 < v)) ∧
    (∀ v, v ≤ 65535 →
      ((Rtc.set_year v m).1 = some Error.InvalidInputData ↔ v < 1970 ∨ 2069 < v)) ∧
    (Rtc.set_seconds 59 m).1 = none ∧ (Rtc.set_minutes 59 m).1 = none ∧
    (Rtc.set_hours 23 m).1 = none ∧ (Rtc.set_weekday 7 m).1 = none ∧
    (Rtc.set_day 31 m).1 = none ∧ (Rtc.set_month 12 m).1 = none ∧
    (Rtc.set_year 2069 m).1 = none ∧ (Rtc.set_year 1970 m).1 = none := by
  refine ⟨?_, ?_, ?_, ?_, ?_, ?_, ?_, ?_, ?_, ?_, ?_, ?_, ?_, ?_, ?_⟩
  · intro v _
    by_cases h : 59 < v
    · simp [Rtc.set_seconds, h]
    · simp [Rtc.set_seconds, h, bcd2_encode_ok v (by omega)]
  · intro v _
    by_cases h : 59 < v
    · simp [Rtc.set_minutes, h]
    · simp [Rtc.set_minutes, h, bcd2_encode_ok v (by omega)]
  · intro v _
    by_cases h : 23 < v
    · simp [Rtc.set_hours, h]
    · simp [Rtc.set_hours, h, bcd2_encode_ok v (by omega)]
  · intro v _
    by_cases h : v = 0 ∨ 7 < v
    · simp [Rtc.set_weekday, Nat.lt_one_iff, h]
    · simp [Rtc.set_weekday, Nat.lt_one_iff, h]
  · intro v _
    by_cases h : v = 0 ∨ 31 < v
    · simp [Rtc.set_day, Nat.lt_one_iff, h]
    · simp [Rtc.set_day, Nat.lt_one_iff, h, bcd2_encode_ok v (by omega)]
  · intro v _
    by_cases h : v = 0 ∨ 12 < v
    · simp [Rtc.set_month, Nat.lt_one_iff, h]
    · simp [Rtc.set_month, Nat.lt_one_iff, h, bcd2_encode_ok v (by omega)]
  · intro v _
    by_cases h : v < 1970 ∨ 2069 < v
    · simp [Rtc.set_year, h]
    · simp [Rtc.set_year, h, bcd2_encode_ok (v - 1970) (by omega)]
  · simp [Rtc.set_seconds, bcd2_encode_ok 59 (by omega)]
  · simp [Rtc.set_minutes, bcd2_encode_ok 59 (by omega)]
  · simp [Rtc.set_hours, bcd2_encode_ok 23 (by omega)]
  · simp [Rtc.set_weekday]
  · simp [Rtc.set_day, bcd2_encode_ok 31 (by omega)]
  · simp [Rtc.set_month, bcd2_encode_ok 12 (by omega)]
  · simp [Rtc.set_year, bcd2_encode_ok (2069 - 1970) (by omega)]
  · simp [Rtc.set_year, bcd2_encode_ok 0 (by omega)]

/-- C2 witness: the seconds setter rejects 60 and the year setter
accepts 1970 on the reset machine. -/
theorem c2_witness :
    ((Rtc.set_seconds 60 machineReset).1 = some Error.InvalidInputData ↔ 59 < 60) ∧
    (Rtc.set_year 1970 machineReset).1 = none :=
  ⟨(c2_setter_validation machineReset).1 60 (by decide),
   (c2_setter_validation machineReset).2.2.2.2.2.2.2.2.2.2.2.2.2.2⟩

/-- C3: whenever a setter reports an error, no register access has taken
place: the machine is returned unchanged and the access trace is empty. -/
theorem c3_rejected_no_write (m : Machine) :
    (∀ v, (Rtc.set_seconds v m).1.isSome → (Rtc.set_seconds v m).2 = (m, [])) ∧
    (∀ v, (Rtc.set_minutes v m).1.isSome → (Rtc.set_minutes v m).2 = (m, [])) ∧
    (∀ v, (Rtc.set_hours v m).1.isSome → (Rtc.set_hours v m).2 = (m, [])) ∧
    (∀ v, (Rtc.set_weekday v m).1.isSome → (Rtc.set_weekday v m).2 = (m, [])) ∧
    (∀ v, (Rtc.set_day v m).1.isSome → (Rtc.set_day v m).2 = (m, [])) ∧
    (∀ v, (Rtc.set_month v m).1.isSome → (Rtc.set_month v m).2 = (m, [])) ∧
    (∀ v, (Rtc.set_year v m).1.isSome → (Rtc.set_year v m).2 = (m, [])) ∧
    (∀ d : RDate, (Rtc.set_date d m).1.isSome → (Rtc.set_date d m).2 = (m, [])) ∧
    (∀ d : RDateTime, (Rtc.set_datetime d m).1.isSome → (Rtc.set_datetime d m).2 = (m, [])) := by
  refine ⟨?_, ?_, ?_, ?_, ?_, ?_, ?_, ?_, ?_⟩
  · intro v
    unfold Rtc.set_seconds
    repeat' split
    all_goals intro h
    all_goals first | rfl | simp at h
  · intro v
    unfold Rtc.set_minutes
    repeat' split
    all_goals intro h
    all_goals first | rfl | simp at h
  · intro v
    unfold Rtc.set_hours
    repeat' split
    all_goals intro h
    all_goals first | rfl | simp at h
  · intro v
    unfold Rtc.set_weekday
    repeat' split
    all_goals intro h
    all_goals first | rfl | simp at h
  · intro v
    unfold Rtc.set_day
    repeat' split
    all_goals intro h
    all_goals first | rfl | simp at h
  · intro v
    unfold Rtc.set_month
    repeat' split
    all_goals intro h
    all_goals first | rfl | simp at h
  · intro v
    unfold Rtc.set_year
    repeat' split
    all_goals intro h
    all_goals first | rfl | simp at h
  · intro d
    unfold Rtc.set_date
    repeat' split
    all_goals intro h
    all_goals first | rfl | simp at h
  · intro d
    unfold Rtc.set_datetime
    repeat' split
    all_goals intro h
    all_goals first | rfl | simp at h

/-- C3 witness: the rejected call set_seconds 60 touches nothing on the
reset machine. -/
theorem c3_witness : (Rtc.set_seconds 60 machineReset).2 = (machineReset, []) :=
  (c3_rejected_no_write machineReset).1 60 (by decide)

/-- C5: programming a valid date-time (year 1970 to 2069) with
set_datetime and reading it back with get_datetime, with no intervening
hardware activity, returns the identical year, month, day, hour, minute
and second; the year survives the 1970 offset and the month its single
tens bit encoding. -/
theorem c5_datetime_roundtrip (d : RDateTime) (m : Machine)
    (hy1 : 1970 ≤ d.year) (hy2 : d.year ≤ 2069)
    (hmo1 : 1 ≤ d.month) (hmo2 : d.month ≤ 12)
    (hd1 : 1 ≤ d.day) (hd2 : d.day ≤ days_in_month d.year d.month)
    (hh : d.hour ≤ 23) (hmi : d.minute ≤ 59) (hs : d.second ≤ 59) :
    (Rtc.set_datetime d m).1 = none ∧
    (Rtc.get_datetime (Rtc.set_datetime d m).2.1).1 =
      some { year := d.year, month := d.month, day := d.day,
             hour := d.hour, minute := d.minute, second := d.second } := by
  have hdm := days_in_month_le d.year d.month
  have hyr : ¬(d.year < 1970 ∨ 2069 < d.year) := by omega
  have hey := bcd2_encode_ok (d.year - 1970).toNat (by omega)
  have hem := bcd2_encode_ok d.month (by omega)
  have hed := bcd2_encode_ok d.day (by omega)
  have heh := bcd2_encode_ok d.hour (by omega)
  have hemi := bcd2_encode_ok d.minute (by omega)
  have hes := bcd2_encode_ok d.second (by omega)
  have htr : (Rtc.set_datetime d m).2.1.rtc.tr =
      { pm := false, ht := d.hour / 10 % 4, hu := d.hour % 10 % 16,
        mnt := d.minute / 10 % 8, mnu := d.minute % 10 % 16,
        st := d.second / 10 % 8, su := d.second % 10 % 16 } := by
    simp [Rtc.set_datetime, Rtc.modify, hyr, hey, hem, hed, heh, hemi, hes]
  have hdr : (Rtc.set_datetime d m).2.1.rtc.dr =
      { yt := (d.year - 1970).toNat / 10 % 16, yu := (d.year - 1970).toNat % 10 % 16,
        wdu := 1, mt := decide (0 < d.month / 10), mu := d.month % 10 % 16,
        dt := d.day / 10 % 4, du := d.day % 10 % 16 } := by
    simp [Rtc.set_datetime, Rtc.modify, drReset, hyr, hey, hem, hed, heh, hemi, hes]
  have hsec : decode_seconds ((Rtc.set_datetime d m).2.1.rtc.tr) = d.second := by
    rw [htr]
    simp only [decode_seconds, bcd2_decode]
    rw [Nat.mod_eq_of_lt (show d.second / 10 < 8 by omega),
        Nat.mod_eq_of_lt (show d.second % 10 < 16 by omega)]
    omega
  have hmin : decode_minutes ((Rtc.set_datetime d m).2.1.rtc.tr) = d.minute := by
    rw [htr]
    simp only [decode_minutes, bcd2_decode]
    rw [Nat.mod_eq_of_lt (show d.minute / 10 < 8 by omega),
        Nat.mod_eq_of_lt (show d.minute % 10 < 16 by omega)]
    omega
  have hhr : decode_hours ((Rtc.set_datetime d m).2.1.rtc.tr) = d.hour := by
    rw [htr]
    simp only [decode_hours, bcd2_decode]
    rw [Nat.mod_eq_of_lt (show d.hour / 10 < 4 by omega),
        Nat.mod_eq_of_lt (show d.hour % 10 < 16 by omega)]
    omega
  have hdy : decode_day ((Rtc.set_datetime d m).2.1.rtc.dr) = d.day := by
    rw [hdr]
    simp only [decode_day, bcd2_decode]
    rw [Nat.mod_eq_of_lt (show d.day / 10 < 4 by omega),
        Nat.mod_eq_of_lt (show d.day % 10 < 16 by omega)]
    omega
  have hmon : decode_month ((Rtc.set_datetime d m).2.1.rtc.dr) = d.month := by
    rw [hdr]
    simp only [decode_month, bcd2_decode]
    rw [Nat.mod_eq_of_lt (show d.month % 10 < 16 by omega)]
    by_cases hten : 0 < d.month / 10 <;> simp [hten] <;> omega
  have hyear : ((decode_year ((Rtc.set_datetime d m).2.1.rtc.dr) : Nat) : Int) = d.year := by
    rw [hdr]
    simp only [decode_year, bcd2_decode]
    rw [Nat.mod_eq_of_lt (show (d.year - 1970).toNat / 10 < 16 by omega),
        Nat.mod_eq_of_lt (show (d.year - 1970).toNat % 10 < 16 by omega),
        (show (d.year - 1970).toNat / 10 * 10 + (d.year - 1970).toNat % 10
            = (d.year - 1970).toNat by omega),
        Nat.mod_eq_of_lt (show (d.year - 1970).toNat < 256 by omega),
        Nat.mod_eq_of_lt (show (d.year - 1970).toNat + 1970 < 65536 by omega)]
    omega
  have herr : (Rtc.set_datetime d m).1 = none := by
    simp [Rtc.set_datetime, hyr, hey, hem, hed, heh, hemi, hes]
  refine ⟨herr, ?_⟩
  simp only [Rtc.get_datetime]
  simp only [hsec, hmin, hhr, hdy, hmon, hyear]
  rw [if_pos ⟨hmo1, hmo2, hd1, hd2, hh, hmi, hs⟩]

/-- C5 witness: the round trip at 2024-06-15 12:34:56 on the reset machine. -/
theorem c5_witness :
    (Rtc.set_datetime ⟨2024, 6, 15, 12, 34, 56⟩ machineReset).1 = none ∧
    (Rtc.get_datetime (Rtc.set_datetime ⟨2024, 6, 15, 12, 34, 56⟩ machineReset).2.1).1 =
      some { year := 2024, month := 6, day := 15, hour := 12, minute := 34, second := 56 } :=
  c5_datetime_roundtrip ⟨2024, 6, 15, 12, 34, 56⟩ machineReset (by decide) (by decide)
    (by decide) (by decide) (by decide) (by decide) (by decide) (by decide) (by decide)

/-- C6: a modify transaction performs exactly, and in this order: the
unlock writes 0xCA and 0x53 to the write-protection register, the status
read, conditionally (only when the init flag is not already set) the
enter-init write and the busy-wait for the init flag, the caller
supplied mutation, the exit-init write, the busy-wait for the init flag
to clear, and the lock write 0xFF; no other access occurs in the
transaction. -/
theorem c6_modify_bracket (f : RtcRegs → RtcRegs × List Access) (m : Machine) :
    (Rtc.modify f m).2 =
      [Access.wprWrite 0xCA, Access.wprWrite 0x53, Access.isrRead]
        ++ (if m.rtc.isr.initf then [] else [Access.isrMod, Access.pollInitfSet])
        ++ (f (Rtc.initEntry { m.rtc with wpr := 0x53 }).1).2
        ++ [Access.isrMod, Access.pollInitfClear, Access.wprWrite 0xFF] ∧
    (Rtc.modify f m).1.rtc.wpr = 0xFF := by
  constructor
  · unfold Rtc.modify Rtc.initEntry
    by_cases h : m.rtc.isr.initf <;> simp [h]
  · rfl

/-- C7: get_datetime performs exactly the access sequence wait for the
synchronization flag, read the time register, read the date register
(never date before time), clear the synchronization flag; its only state
effect is the cleared synchronization flag, and decoding touches no
register. -/
theorem c7_get_datetime_order (m : Machine) :
    (Rtc.get_datetime m).2.2 =
      [Access.pollRsf, Access.trRead, Access.drRead, Access.isrMod] ∧
    (Rtc.get_datetime m).2.1 =
      { m with rtc := { m.rtc with isr := { m.rtc.isr with rsf := false } } } :=
  ⟨rfl, rfl⟩

/-- C8: unpend sets the clear-wakeup-flag bit of the power controller,
clears exactly the status flag of the given event while leaving the
other three status flags untouched, and sets the pending-clear bit of
the mapped line: 17 for both alarms, 20 for wakeup, 19 for timestamp;
the trigger and mask registers are untouched. -/
theorem c8_unpend_effects (m : Machine) :
    ((Rtc.unpend Event.AlarmA m).pwr.cwuf = true ∧
     (Rtc.unpend Event.AlarmA m).rtc.isr.alraf = false ∧
     (Rtc.unpend Event.AlarmA m).rtc.isr.alrbf = m.rtc.isr.alrbf ∧
     (Rtc.unpend Event.AlarmA m).rtc.isr.wutf = m.rtc.isr.wutf ∧
     (Rtc.unpend Event.AlarmA m).rtc.isr.tsf = m.rtc.isr.tsf ∧
     (Rtc.unpend Event.AlarmA m).exti.pr = bbset m.exti.pr 17 ∧
     (Rtc.unpend Event.AlarmA m).exti.rtsr = m.exti.rtsr ∧
     (Rtc.unpend Event.AlarmA m).exti.imr = m.exti.imr) ∧
    ((Rtc.unpend Event.AlarmB m).pwr.cwuf = true ∧
     (Rtc.unpend Event.AlarmB m).rtc.isr.alrbf = false ∧
     (Rtc.unpend Event.AlarmB m).rtc.isr.alraf = m.rtc.isr.alraf ∧
     (Rtc.unpend Event.AlarmB m).rtc.isr.wutf = m.rtc.isr.wutf ∧
     (Rtc.unpend Event.AlarmB m).rtc.isr.tsf = m.rtc.isr.tsf ∧
     (Rtc.unpend Event.AlarmB m).exti.pr = bbset m.exti.pr 17 ∧
     (Rtc.unpend Event.AlarmB m).exti.rtsr = m.exti.rtsr ∧
     (Rtc.unpend Event.AlarmB m).exti.imr = m.exti.imr) ∧
    ((Rtc.unpend Event.Wakeup m).pwr.cwuf = true ∧
     (Rtc.unpend Event.Wakeup m).rtc.isr.wutf = false ∧
     (Rtc.unpend Event.Wakeup m).rtc.isr.alraf = m.rtc.isr.alraf ∧
     (Rtc.unpend Event.Wakeup m).rtc.isr.alrbf = m.rtc.isr.alrbf ∧
     (Rtc.unpend Event.Wakeup m).rtc.isr.tsf = m.rtc.isr.tsf ∧
     (Rtc.unpend Event.Wakeup m).exti.pr = bbset m.exti.pr 20 ∧
     (Rtc.unpend Event.Wakeup m).exti.rtsr = m.exti.rtsr ∧
     (Rtc.unpend Event.Wakeup m).exti.imr = m.exti.imr) ∧
    ((Rtc.unpend Event.Timestamp m).pwr.cwuf = true ∧
     (Rtc.unpend Event.Timestamp m).rtc.isr.tsf = false ∧
     (Rtc.unpend Event.Timestamp m).rtc.isr.alraf = m.rtc.isr.alraf ∧
     (Rtc.unpend Event.Timestamp m).rtc.isr.alrbf = m.rtc.isr.alrbf ∧
     (Rtc.unpend Event.Timestamp m).rtc.isr.wutf = m.rtc.isr.wutf ∧
     (Rtc.unpend Event.Timestamp m).exti.pr = bbset m.exti.pr 19 ∧
     (Rtc.unpend Event.Timestamp m).exti.rtsr = m.exti.rtsr ∧
     (Rtc.unpend Event.Timestamp m).exti.imr = m.exti.imr) :=
  ⟨⟨rfl, rfl, rfl, rfl, rfl, rfl, rfl, rfl⟩,
   ⟨rfl, rfl, rfl, rfl, rfl, rfl, rfl, rfl⟩,
   ⟨rfl, rfl, rfl, rfl, rfl, rfl, rfl, rfl⟩,
   ⟨rfl, rfl, rfl, rfl, rfl, rfl, rfl, rfl⟩⟩

/-- C10: wakeup_timer performs a full overwrite of the control register:
afterwards the clock selection is 0b100 and the wakeup interrupt and
wakeup timer enables are set while every other modelled control bit is
cleared, and the timer register holds the low 16 bits of the value; by
contrast enable_wakeup and listen, which use read-modify-write accesses,
preserve the unrelated control bits. -/
theorem c10_wakeup_timer_overwrites (val : Nat) (m : Machine) :
    (Rtc.wakeup_timer val m).rtc.cr =
      { wucksel := 4, tsie := false, wutie := true, alrbie := false, alraie := false,
        tse := false, wute := true, alrbe := false, alrae := false, fmt := false } ∧
    (Rtc.wakeup_timer val m).rtc.wutr = val % 65536 ∧
    (∀ i m', Rtc.enable_wakeup i m = some m' →
      m'.rtc.cr.alraie = m.rtc.cr.alraie ∧ m'.rtc.cr.alrbie = m.rtc.cr.alrbie ∧
      m'.rtc.cr.tsie = m.rtc.cr.tsie ∧ m'.rtc.cr.alrae = m.rtc.cr.alrae ∧
      m'.rtc.cr.alrbe = m.rtc.cr.alrbe ∧ m'.rtc.cr.tse = m.rtc.cr.tse ∧
      m'.rtc.cr.fmt = m.rtc.cr.fmt) ∧
    (∀ e, (Rtc.listen e m).rtc.cr.fmt = m.rtc.cr.fmt ∧
      (Rtc.listen e m).rtc.cr.wucksel = m.rtc.cr.wucksel ∧
      (Rtc.listen e m).rtc.cr.wute = m.rtc.cr.wute ∧
      (Rtc.listen e m).rtc.cr.alrae = m.rtc.cr.alrae ∧
      (Rtc.listen e m).rtc.cr.alrbe = m.rtc.cr.alrbe ∧
      (Rtc.listen e m).rtc.cr.tse = m.rtc.cr.tse) := by
  refine ⟨rfl, rfl, ?_, ?_⟩
  · intro i m' h
    unfold Rtc.enable_wakeup at h
    dsimp only at h
    split at h
    · split at h
      · injection h with h2
        subst h2
        exact ⟨rfl, rfl, rfl, rfl, rfl, rfl, rfl⟩
      · exact absurd h (by simp)
    · split at h
      · injection h with h2
        subst h2
        exact ⟨rfl, rfl, rfl, rfl, rfl, rfl, rfl⟩
      · exact absurd h (by simp)
  · intro e
    cases e <;> exact ⟨rfl, rfl, rfl, rfl, rfl, rfl⟩

/-- C10 witness: a successful enable_wakeup call at interval 2 on the
reset machine preserves the unrelated control bits. -/
theorem c10_witness :
    ((Rtc.enable_wakeup 2 machineReset).getD machineReset).rtc.cr.alraie
        = machineReset.rtc.cr.alraie ∧
    ((Rtc.enable_wakeup 2 machineReset).getD machineReset).rtc.cr.alrbie
        = machineReset.rtc.cr.alrbie ∧
    ((Rtc.enable_wakeup 2 machineReset).getD machineReset).rtc.cr.tsie
        = machineReset.rtc.cr.tsie ∧
    ((Rtc.enable_wakeup 2 machineReset).getD machineReset).rtc.cr.alrae
        = machineReset.rtc.cr.alrae ∧
    ((Rtc.enable_wakeup 2 machineReset).getD machineReset).rtc.cr.alrbe
        = machineReset.rtc.cr.alrbe ∧
    ((Rtc.enable_wakeup 2 machineReset).getD machineReset).rtc.cr.tse
        = machineReset.rtc.cr.tse ∧
    ((Rtc.enable_wakeup 2 machineReset).getD machineReset).rtc.cr.fmt
        = machineReset.rtc.cr.fmt :=
  (c10_wakeup_timer_overwrites 3 machineReset).2.2.1 2
    ((Rtc.enable_wakeup 2 machineReset).getD machineReset) rfl
